import Mathlib

/-!
Verification of the safe-treasury scripts (agent-treasury-propose.mjs,
agent-treasury-configure.mjs, agent-treasury-refill.mjs,
agent-treasury-status.mjs) against their natural-language specification.

The byte-level hashing pipeline is embedded symbolically: keccak256 is
modelled as a free constructor of an idealized hash domain, so equalities
between hash terms reflect the collision-free idealization the spec itself
assumes (distinct preimages give distinct digests with overwhelming
probability). Everything else (byte lists, the configure pipeline, the
refill decision, the status arithmetic) is embedded concretely as
executable functions over Nat and List Nat.
-/

mutual

/-- A 256-bit word of the hashing pipeline: either a concrete numeric
value (addresses, amounts, the operation byte and the nonce are all
left-padded to 32 bytes by the ABI encoding) or the keccak256 digest of a
byte string. Modelling keccak256 as a constructor makes it injective,
which is the idealized collision-resistance assumption of the spec. -/
inductive Word where
  | lit : Nat → Word
  | kec : Bytes → Word

/-- A byte string of the hashing pipeline: concrete bytes interleaved with
the 32-byte big-endian expansions of words (as produced by the ABI
encoding and by viem concat). -/
inductive Bytes where
  | nil : Bytes
  | byte : Nat → Bytes → Bytes
  | word : Word → Bytes → Bytes

end

/-- ASCII bytes of a Lean string, used for the typehash preimage. -/
def strBytes (s : String) : Bytes :=
  s.toList.foldr (fun c acc => Bytes.byte c.toNat acc) Bytes.nil

/-- Static ABI encoding of a list of 32-byte words: their concatenation
(encodeAbiParameters over the all-static parameter list used by both
scripts, where every parameter occupies exactly one 32-byte slot). -/
def encWords (ws : List Word) : Bytes :=
  ws.foldr (fun w acc => Bytes.word w acc) Bytes.nil

/-- Model of the viem zeroAddress constant, address(0). -/
def zeroAddressN : Nat := 0

/-- Model of the MOR_TOKEN address constant shared by the scripts. -/
def morTokenAddr : Nat := 0x7431aDa8a591C955a994a21710752EF9b882b8e3

/-- Model of SAFE_TX_TYPEHASH from agent-treasury-propose.mjs (the same
literal appears in agent-treasury-configure.mjs): keccak256 of the ASCII
bytes of the SafeTx EIP-712 type string. -/
def SAFE_TX_TYPEHASH : Word :=
  Word.kec (strBytes "SafeTx(address to,uint256 value,bytes data,uint8 operation,uint256 safeTxGas,uint256 baseGas,uint256 gasPrice,address gasToken,address refundReceiver,uint256 nonce)")

/-- The txData record passed to computeSafeTxHash: target address (the
field named to in the source, renamed because to is a reserved token in
Lean), native value, call payload, operation kind and Safe nonce. -/
structure SafeTx where
  toAddr : Nat
  value : Nat
  data : Bytes
  operation : Nat
  nonce : Nat

/-- Model of computeSafeTxHash from agent-treasury-propose.mjs:
keccak256(concat(0x1901, domainSeparator, keccak256(encodeAbiParameters(
[SAFE_TX_TYPEHASH, to, value, keccak256(data), operation, 0, 0, 0,
zeroAddress, zeroAddress, nonce])))). -/
def computeSafeTxHash (domainSeparator : Word) (txData : SafeTx) : Word :=
  Word.kec
    (Bytes.byte 0x19 (Bytes.byte 0x01
      (Bytes.word domainSeparator
        (Bytes.word
          (Word.kec (encWords
            [SAFE_TX_TYPEHASH,
             Word.lit txData.toAddr,
             Word.lit txData.value,
             Word.kec txData.data,
             Word.lit txData.operation,
             Word.lit 0,
             Word.lit 0,
             Word.lit 0,
             Word.lit zeroAddressN,
             Word.lit zeroAddressN,
             Word.lit txData.nonce]))
          Bytes.nil))))

/-- Specification-side definition, following the spec words of section 4.1
and the claim: the structured-data hash over the fixed field layout
(typehash, address, amount, payload-hash, operation, three zero fee
fields, two zero-address fee-routing fields, nonce), with the payload
hashed before inclusion. -/
def specStructHash (tx : SafeTx) : Word :=
  Word.kec (encWords
    [SAFE_TX_TYPEHASH,
     Word.lit tx.toAddr,
     Word.lit tx.value,
     Word.kec tx.data,
     Word.lit tx.operation,
     Word.lit 0, Word.lit 0, Word.lit 0,
     Word.lit 0, Word.lit 0,
     Word.lit tx.nonce])

/-- Specification-side definition: the standard two-stage hash-of-hash
construction 0x1901 followed by the domain separator followed by the
structured-data hash, all hashed with keccak256. -/
def specCommitment (domainSeparator : Word) (tx : SafeTx) : Word :=
  Word.kec
    (Bytes.byte 0x19 (Bytes.byte 0x01
      (Bytes.word domainSeparator
        (Bytes.word (specStructHash tx) Bytes.nil))))

/-- Model of the inline safeTxHash computation of execSafeTx in
agent-treasury-configure.mjs, which fixes value to 0 and takes the
remaining transaction fields as separate arguments. -/
def execSafeTxHash (domainSeparator : Word) (toAddr : Nat) (data : Bytes)
    (operation : Nat) (nonce : Nat) : Word :=
  Word.kec
    (Bytes.byte 0x19 (Bytes.byte 0x01
      (Bytes.word domainSeparator
        (Bytes.word
          (Word.kec (encWords
            [SAFE_TX_TYPEHASH,
             Word.lit toAddr,
             Word.lit 0,
             Word.kec data,
             Word.lit operation,
             Word.lit 0,
             Word.lit 0,
             Word.lit 0,
             Word.lit zeroAddressN,
             Word.lit zeroAddressN,
             Word.lit nonce]))
          Bytes.nil))))

/-- Model of the recovery-byte adjustment in signSafeTxHash
(agent-treasury-propose.mjs): sigBytes[64] += 4 on a Uint8Array. A write
at index 64 of a shorter array is an out-of-bounds typed-array write and
is silently ignored (List.set is likewise the identity out of bounds);
an in-bounds write stores the value modulo 256. -/
def signSafeTxHashAdjust (sig : List Nat) : List Nat :=
  sig.set 64 ((sig.getD 64 0 + 4) % 256)

/-- Model of the identical recovery-byte adjustment inside execSafeTx
(agent-treasury-configure.mjs): the adjusted signature passed on to
execTransaction. -/
def execSafeTxAdjust (sig : List Nat) : List Nat :=
  sig.set 64 ((sig.getD 64 0 + 4) % 256)

/-- Error taxonomy of the spec for the signature codec. -/
inductive SigError where
  | encodingError
deriving DecidableEq

/-- Model of the complete post-signing transform of signSafeTxHash in the
fallible-code convention: the JS code performs no validation and cannot
throw on this path (the out-of-bounds typed-array write is a no-op), so
the result is always ok. -/
def toOffsetEncodingResult (sig : List Nat) : Except SigError (List Nat) :=
  Except.ok (signSafeTxHashAdjust sig)

/-- Specification-side definition of the offset encoding, following the
amended claim words: the first 64 bytes unchanged and the recovery byte
incremented by 4 modulo 256. -/
def offsetEncodingSpec (sig : List Nat) : List Nat :=
  sig.take 64 ++ [(sig.getD 64 0 + 4) % 256]

/-- Chain state read by the configure pipeline: the Safe threshold and
owner set, the module-enabled flag and the AllowanceModule delegate list.
Allowance storage is omitted because no probe of the pipeline reads it. -/
structure ChainState where
  threshold : Nat
  owners : List Nat
  moduleEnabled : Bool
  delegates : List Nat
deriving DecidableEq

/-- An on-chain write submitted by the configure pipeline. -/
inductive Write where
  | enableModule
  | addDelegate (delegate : Nat)
  | setAllowance (delegate token amount resetMin : Nat)
deriving DecidableEq

/-- Outcome of a configure run. The completed case records the receipt
statuses of the two setAllowance transactions, which the script logs but
does not act on. -/
inductive Outcome where
  | abortThreshold
  | abortNotOwner
  | abortEnableModuleReverted
  | abortAddDelegateReverted
  | completed (morOk ethOk : Bool)
deriving DecidableEq

/-- Model of the main pipeline of agent-treasury-configure.mjs (real-run
path). The receipt oracle gives the on-chain receipt status of the k-th
submitted transaction. Steps: threshold and ownership prechecks; TX1
enableModule guarded by the isModuleEnabled probe and aborting on revert;
TX2 addDelegate guarded by the getDelegates probe and aborting on revert;
TX3 and TX4 setAllowance submitted unconditionally, their receipt status
logged only. Returns the ordered list of submitted writes and the
outcome. -/
def runConfigure (st : ChainState) (agent morAmt ethAmt resetMin : Nat)
    (receipt : Nat → Bool) : List Write × Outcome :=
  if 1 < st.threshold then ([], Outcome.abortThreshold)
  else if agent ∉ st.owners then ([], Outcome.abortNotOwner)
  else
    let w1 : List Write := if st.moduleEnabled then [] else [Write.enableModule]
    let k1 : Nat := if st.moduleEnabled then 0 else 1
    let ok1 : Bool := if st.moduleEnabled then true else receipt 0
    if ok1 = false then (w1, Outcome.abortEnableModuleReverted)
    else
      let w2 : List Write :=
        if agent ∈ st.delegates then w1 else w1 ++ [Write.addDelegate agent]
      let k2 : Nat := if agent ∈ st.delegates then k1 else k1 + 1
      let ok2 : Bool := if agent ∈ st.delegates then true else receipt k1
      if ok2 = false then (w2, Outcome.abortAddDelegateReverted)
      else
        (w2 ++ [Write.setAllowance agent morTokenAddr morAmt resetMin,
                Write.setAllowance agent zeroAddressN ethAmt resetMin],
         Outcome.completed (receipt k2) (receipt (k2 + 1)))

/-- Effect of a successfully executed write on the probed chain state.
setAllowance mutates only allowance storage, which no probe of the
pipeline reads. -/
def applyWrite (st : ChainState) (w : Write) : ChainState :=
  match w with
  | Write.enableModule => { st with moduleEnabled := true }
  | Write.addDelegate d => { st with delegates := st.delegates ++ [d] }
  | Write.setAllowance _ _ _ _ => st

/-- Applies a run of writes in submission order. -/
def applyWrites (st : ChainState) (ws : List Write) : ChainState :=
  ws.foldl applyWrite st

/-- An allowance pull submitted on-chain by the refill script via
executeAllowanceTransfer (the recipient is always the hot wallet, the
payment fields are zero and the signature is empty). -/
inductive Pull where
  | submit (token amount : Nat)
deriving DecidableEq

/-- Model of the two refill branches of agent-treasury-refill.mjs: the MOR
pull is submitted exactly when the hot-wallet MOR balance is below the MOR
low threshold, the ETH pull exactly when the ETH balance is below the ETH
low threshold. No allowance state is read or consulted before
submission. -/
def refillSubmissions (morBal morLow morAmt ethBal ethLow ethAmt : Nat) : List Pull :=
  (if morBal < morLow then [Pull.submit morTokenAddr morAmt] else []) ++
  (if ethBal < ethLow then [Pull.submit zeroAddressN ethAmt] else [])

/-- Delegate allowance state as the spec data model reads it from chain. -/
structure AllowanceState where
  granted : Nat
  spent : Nat
  resetIntervalMin : Nat
  lastResetMin : Nat
deriving DecidableEq

/-- Specification-side definition following the spec words of section 4.5:
remaining = max(0, granted - spentThisPeriod), where spentThisPeriod is
treated as 0 when nowMinutes is at least lastResetMinutes +
resetIntervalMinutes (Nat subtraction already truncates at 0). -/
def specRemaining (a : AllowanceState) (nowMin : Nat) : Nat :=
  let spentEff := if a.lastResetMin + a.resetIntervalMin ≤ nowMin then 0 else a.spent
  a.granted - spentEff

/-- Next-reset report of the status script for one allowance row. -/
inductive ResetReport where
  | notYetUsed
  | availableNow
  | upcoming (tsSeconds : Nat)
deriving DecidableEq

/-- One allowance row of the status report. -/
structure AllowanceReport where
  remaining : Nat
  reset : ResetReport
deriving DecidableEq

/-- Model of the per-token allowance reporting loop of
agent-treasury-status.mjs: rows with amount 0 are reported as not
configured (none); otherwise remaining is 0 when spent exceeds amount and
amount - spent else, and the next reset is not-yet-used when lastResetMin
is 0, available now when (lastResetMin + resetTimeMin) * 60 * 1000
milliseconds is not after the current time nowMs, and upcoming at that
timestamp otherwise. The script only reads chain state. -/
def allowanceStatus (amount spent resetTimeMin lastResetMin nowMs : Nat) :
    Option AllowanceReport :=
  if amount = 0 then none
  else some
    { remaining := if spent > amount then 0 else amount - spent,
      reset :=
        if lastResetMin = 0 then ResetReport.notYetUsed
        else if (lastResetMin + resetTimeMin) * 60 * 1000 ≤ nowMs then
          ResetReport.availableNow
        else ResetReport.upcoming ((lastResetMin + resetTimeMin) * 60) }

/-- Helper: the MOR token address differs from address(0), so a MOR pull
and an ETH pull are never the same submission. -/
theorem morTokenAddr_ne_zero : morTokenAddr ≠ zeroAddressN := by decide

/-- C1: computeSafeTxHash returns keccak256 of the two-stage construction
0x1901, domain separator, keccak256 of the ABI encoding of the typehash,
to, value, keccak256(data), operation, three zero fee fields, two
zero-address fee-routing fields and the nonce, in exactly this order, with
the payload hashed before inclusion. -/
theorem safeTxHash_matches_spec_two_stage (domainSeparator : Word) (tx : SafeTx) :
    computeSafeTxHash domainSeparator tx = specCommitment domainSeparator tx := rfl

/-- C9: computeSafeTxHash is a pure deterministic function of its inputs,
and in the idealized (collision-free) hash model it is injective: two
calls agree exactly when the domain separator and every transaction field
agree, so changing any single field changes the commitment. -/
theorem safeTxHash_pure_injective (d d' : Word) (t t' : SafeTx) :
    computeSafeTxHash d t = computeSafeTxHash d' t' ↔ d = d' ∧ t = t' := by
  constructor
  · intro h
    cases t
    cases t'
    simp only [computeSafeTxHash, encWords, List.foldr_cons, List.foldr_nil,
      Word.kec.injEq, Bytes.byte.injEq, Bytes.word.injEq, Word.lit.injEq,
      eq_self_iff_true, true_and, and_true] at h
    simp only [SafeTx.mk.injEq]
    tauto
  · rintro ⟨rfl, rfl⟩
    rfl

/-- C10: the inline safeTxHash computation of execSafeTx in the configure
script and computeSafeTxHash of the propose script agree on every common
input, with value fixed at 0. -/
theorem execSafeTxHash_eq_computeSafeTxHash (domainSeparator : Word) (toAddr : Nat)
    (data : Bytes) (operation : Nat) (nonce : Nat) :
    execSafeTxHash domainSeparator toAddr data operation nonce =
      computeSafeTxHash domainSeparator
        { toAddr := toAddr, value := 0, data := data, operation := operation,
          nonce := nonce } := rfl

/-- C5 counterexample: on a concrete 64-byte input (not the expected 65
bytes) the recovery-byte transform does not fail with EncodingError; the
out-of-bounds write is ignored and the signature is returned unchanged. -/
theorem adjust_no_length_check_cex :
    (List.replicate 64 0).length ≠ 65 ∧
    toOffsetEncodingResult (List.replicate 64 0) = Except.ok (List.replicate 64 0) :=
  ⟨by decide, rfl⟩

/-- C5 amended: the recovery-byte transform performs no length validation
and never fails; on any input shorter than 65 bytes the index-64 write is
out of bounds and ignored, and the input signature is returned unchanged. -/
theorem adjust_never_fails (sig : List Nat) (e : SigError) :
    toOffsetEncodingResult sig ≠ Except.error e ∧
    (sig.length < 65 → toOffsetEncodingResult sig = Except.ok sig) := by
  constructor
  · intro h
    simp [toOffsetEncodingResult] at h
  · intro h
    simp only [toOffsetEncodingResult, signSafeTxHashAdjust, Except.ok.injEq]
    exact List.set_eq_of_length_le (by omega)

/-- C6 counterexample: on a concrete 65-byte signature whose recovery byte
is 255, the emitted recovery byte is 3 = (255 + 4) mod 256, not 255 + 4:
the increment wraps modulo 256. -/
theorem offset_wrap_at_255_cex :
    (signSafeTxHashAdjust (List.replicate 64 7 ++ [255])).getD 64 0 ≠
      (List.replicate 64 7 ++ [255]).getD 64 0 + 4 ∧
    (List.replicate 64 7 ++ [255]).length = 65 := by
  decide

/-- C6 amended: for every 65-byte raw signature, both signing paths (the
propose script and the configure script) emit the offset encoding: the
first 64 bytes unchanged and the recovery byte incremented by 4 modulo
256, which equals an increment by exactly 4 whenever the raw recovery byte
is at most 251 (as it is for the eth-sign values 27 and 28). -/
theorem offset_encoding_mod256 (sig : List Nat) (h : sig.length = 65) :
    signSafeTxHashAdjust sig = offsetEncodingSpec sig ∧
    execSafeTxAdjust sig = offsetEncodingSpec sig ∧
    (sig.getD 64 0 + 4 < 256 →
      (signSafeTxHashAdjust sig).getD 64 0 = sig.getD 64 0 + 4) := by
  have hset : sig.set 64 ((sig.getD 64 0 + 4) % 256) = offsetEncodingSpec sig := by
    rw [List.set_eq_take_cons_drop _ (by omega)]
    rw [offsetEncodingSpec]
    have : sig.drop 65 = [] := List.drop_eq_nil_of_le (by omega)
    simp [this]
  refine ⟨hset, hset, ?_⟩
  intro hlt
  rw [signSafeTxHashAdjust, List.getD_eq_getElem?_getD,
    List.getElem?_set_eq_of_lt _ (by omega)]
  simp only [Option.getD_some]
  exact Nat.mod_eq_of_lt hlt

/-- C6 witness: the amended theorem evaluated on the concrete 65-byte
signature of all ones: byte 64 becomes 5 and the rest is unchanged. -/
theorem offset_encoding_mod256_wit :
    signSafeTxHashAdjust (List.replicate 65 1) = List.replicate 64 1 ++ [5] :=
  ((offset_encoding_mod256 (List.replicate 65 1) (by decide)).1).trans (by decide)

/-- C8: the configure pipeline runs only when the threshold read from
chain is exactly 1. On-chain thresholds are at least 1; whenever the
threshold differs from 1 (hence exceeds 1) the run aborts with the
threshold error before any transaction is signed or submitted, with an
empty write list. -/
theorem configure_requires_threshold_one (st : ChainState)
    (agent morAmt ethAmt resetMin : Nat) (receipt : Nat → Bool)
    (h1 : 1 ≤ st.threshold) (hne : st.threshold ≠ 1) :
    runConfigure st agent morAmt ethAmt resetMin receipt = ([], Outcome.abortThreshold) := by
  rw [runConfigure, if_pos (by omega)]

/-- C8 witness: a concrete run at threshold 2 aborts with no writes. -/
theorem configure_requires_threshold_one_wit :
    runConfigure ⟨2, [7], false, []⟩ 7 50 5 1440 (fun _ => true) =
      ([], Outcome.abortThreshold) :=
  configure_requires_threshold_one ⟨2, [7], false, []⟩ 7 50 5 1440 (fun _ => true)
    (by decide) (by decide)

/-- C2 counterexample: a fully successful first run from a fresh state
(module disabled, no delegates; all receipts succeed) followed by a second
run with no intervening state change: the second run still submits two
on-chain writes, the two setAllowance transactions, not zero. -/
theorem configure_second_run_not_zero_writes_cex :
    (runConfigure ⟨1, [7], false, []⟩ 7 50 5 1440 (fun _ => true)).2 =
      Outcome.completed true true ∧
    runConfigure
        (applyWrites ⟨1, [7], false, []⟩
          (runConfigure ⟨1, [7], false, []⟩ 7 50 5 1440 (fun _ => true)).1)
        7 50 5 1440 (fun _ => true) =
      ([Write.setAllowance 7 morTokenAddr 50 1440,
        Write.setAllowance 7 zeroAddressN 5 1440],
       Outcome.completed true true) := by
  decide

/-- C2 amended: only steps 1 (enableModule) and 2 (addDelegate) are
preceded by idempotency probes and skipped when already satisfied; the two
setAllowance steps are submitted unconditionally. Hence a re-run on a
state already satisfying both probes performs exactly the two setAllowance
writes, not zero. -/
theorem configure_rerun_two_writes (st : ChainState)
    (agent morAmt ethAmt resetMin : Nat) (receipt : Nat → Bool)
    (hth : st.threshold ≤ 1) (hown : agent ∈ st.owners)
    (hmod : st.moduleEnabled = true) (hdel : agent ∈ st.delegates) :
    runConfigure st agent morAmt ethAmt resetMin receipt =
      ([Write.setAllowance agent morTokenAddr morAmt resetMin,
        Write.setAllowance agent zeroAddressN ethAmt resetMin],
       Outcome.completed (receipt 0) (receipt 1)) := by
  rw [runConfigure, if_neg (by omega), if_neg (by simp [hown])]
  simp [hmod, hdel]

/-- C2 witness: the amended theorem evaluated on a concrete
already-configured state. -/
theorem configure_rerun_two_writes_wit :
    runConfigure ⟨1, [7], true, [7]⟩ 7 50 5 1440 (fun _ => true) =
      ([Write.setAllowance 7 morTokenAddr 50 1440,
        Write.setAllowance 7 zeroAddressN 5 1440],
       Outcome.completed true true) :=
  configure_rerun_two_writes ⟨1, [7], true, [7]⟩ 7 50 5 1440 (fun _ => true)
    (by decide) (by decide) (by decide) (by decide)

/-- C4 counterexample: on a concrete state where both probes are satisfied
and every submitted transaction is rejected on-chain, the pipeline still
submits step 4 (setAllowance ETH) after step 3 (setAllowance MOR) was
rejected, and finishes with the completed outcome recording both
rejections instead of aborting. -/
theorem configure_step3_reject_no_abort_cex :
    runConfigure ⟨1, [7], true, [7]⟩ 7 50 5 1440 (fun _ => false) =
      ([Write.setAllowance 7 morTokenAddr 50 1440,
        Write.setAllowance 7 zeroAddressN 5 1440],
       Outcome.completed false false) := by
  decide

/-- C4 amended: the pipeline aborts immediately, with no later transaction
signed or submitted and no rollback of prior steps, when step 1
(enableModule) or step 2 (addDelegate) is rejected on-chain — whether step
1 was skipped by its probe or was submitted and succeeded before the
step-2 rejection; the rejection of step 3 (setAllowance MOR) is only
logged and does not prevent step 4 from being submitted, and step 4 is
the last step. -/
theorem configure_aborts_on_early_reject (st : ChainState)
    (agent morAmt ethAmt resetMin : Nat) (receipt : Nat → Bool)
    (hth : st.threshold ≤ 1) (hown : agent ∈ st.owners) :
    (st.moduleEnabled = false → receipt 0 = false →
      runConfigure st agent morAmt ethAmt resetMin receipt =
        ([Write.enableModule], Outcome.abortEnableModuleReverted)) ∧
    (st.moduleEnabled = true → agent ∉ st.delegates → receipt 0 = false →
      runConfigure st agent morAmt ethAmt resetMin receipt =
        ([Write.addDelegate agent], Outcome.abortAddDelegateReverted)) ∧
    (st.moduleEnabled = false → receipt 0 = true → agent ∉ st.delegates →
      receipt 1 = false →
      runConfigure st agent morAmt ethAmt resetMin receipt =
        ([Write.enableModule, Write.addDelegate agent],
         Outcome.abortAddDelegateReverted)) := by
  refine ⟨?_, ?_, ?_⟩
  · intro hmod hrej
    rw [runConfigure, if_neg (by omega), if_neg (by simp [hown])]
    simp [hmod, hrej]
  · intro hmod hdel hrej
    rw [runConfigure, if_neg (by omega), if_neg (by simp [hown])]
    simp [hmod, hdel, hrej]
  · intro hmod hok1 hdel hrej
    rw [runConfigure, if_neg (by omega), if_neg (by simp [hown])]
    simp [hmod, hok1, hdel, hrej]

/-- C4 witness: the amended theorem evaluated on a concrete fresh state
whose first transaction is rejected: the run is exactly the one rejected
enableModule write and the abort outcome. -/
theorem configure_aborts_on_early_reject_wit :
    runConfigure ⟨1, [7], false, []⟩ 7 50 5 1440 (fun _ => false) =
      ([Write.enableModule], Outcome.abortEnableModuleReverted) :=
  (configure_aborts_on_early_reject ⟨1, [7], false, []⟩ 7 50 5 1440 (fun _ => false)
    (by decide) (by decide)).1 rfl rfl

/-- C3 counterexample: the spec scenario granted=50, spent=0, requested=60
(so the request exceeds the remaining allowance 50) with the hot-wallet
MOR balance 0 below the threshold 20: the refill script still submits the
pull on-chain instead of denying locally. -/
theorem refill_no_local_deny_cex :
    specRemaining ⟨50, 0, 1440, 0⟩ 100 < 60 ∧
    Pull.submit morTokenAddr 60 ∈ refillSubmissions 0 20 60 5 1 3 := by
  decide

/-- C3 amended: the refill script performs no local allowance-policy
evaluation at all. A pull is submitted on-chain exactly when the
hot-wallet balance of that asset is below its low threshold, regardless of
the delegate allowance state; an excessive request is rejected only by the
on-chain module. -/
theorem refill_ignores_allowance (morBal morLow morAmt ethBal ethLow ethAmt : Nat) :
    (Pull.submit morTokenAddr morAmt ∈ refillSubmissions morBal morLow morAmt ethBal ethLow ethAmt ↔
      morBal < morLow) ∧
    (Pull.submit zeroAddressN ethAmt ∈ refillSubmissions morBal morLow morAmt ethBal ethLow ethAmt ↔
      ethBal < ethLow) := by
  have hne : morTokenAddr ≠ zeroAddressN := morTokenAddr_ne_zero
  by_cases h1 : morBal < morLow <;> by_cases h2 : ethBal < ethLow <;>
    simp [refillSubmissions, h1, h2, Pull.submit.injEq, hne, Ne.symm hne]

/-- C7: for every allowance row with a positive amount and a positive
last-reset minute, the status script reports remaining =
max(0, amount - spent) (0 when spent exceeds amount) and reports the reset
as available exactly when the current time in whole minutes (nowMs divided
by 60000) has reached lastResetMin + resetTimeMin; the script performs
reads only, the model being a pure function of the read tuple. -/
theorem status_remaining_and_reset (amount spent resetTimeMin lastResetMin nowMs : Nat)
    (hA : 0 < amount) (hL : 0 < lastResetMin) :
    allowanceStatus amount spent resetTimeMin lastResetMin nowMs =
      some { remaining := Int.toNat (max 0 ((amount : Int) - spent)),
             reset :=
               if lastResetMin + resetTimeMin ≤ nowMs / 60000 then
                 ResetReport.availableNow
               else ResetReport.upcoming ((lastResetMin + resetTimeMin) * 60) } := by
  have hrem : (if spent > amount then 0 else amount - spent) =
      Int.toNat (max 0 ((amount : Int) - spent)) := by
    rw [max_def]
    split_ifs <;> omega
  have hdiv : ((lastResetMin + resetTimeMin) * 60 * 1000 ≤ nowMs) ↔
      (lastResetMin + resetTimeMin ≤ nowMs / 60000) := by
    omega
  rw [allowanceStatus, if_neg (show ¬ (amount = 0) by omega)]
  rw [if_neg (show ¬ (lastResetMin = 0) by omega)]
  rw [hrem]
  rw [if_congr hdiv rfl rfl]

/-- C7 witness: the theorem evaluated on a concrete row: amount 50, spent
45, interval 1 minute, last reset at minute 1, now at 120000 ms = minute
2: remaining 5 and the reset available now. -/
theorem status_remaining_and_reset_wit :
    allowanceStatus 50 45 1 1 120000 =
      some { remaining := 5, reset := ResetReport.availableNow } :=
  (status_remaining_and_reset 50 45 1 1 120000 (by decide) (by decide)).trans (by decide)
